import Mathlib

/-!
Shallow embedding of the fluid-sdk cross-chain transfer core
(Base Sepolia → Aptos via the Wormhole token bridge).

The embedding models:
- `pollVaa` (src/wormholeVaa.ts): bounded-retry attestation polling with
  multiplicative backoff capped at 30000 ms;
- `transferUsdcViaWormhole` (src/wormholeBase.ts): the source-chain phase
  (pre-flight ETH and USDC balance checks, allowance check / approval with
  post-approval re-read loop, transferTokens submission, sequence-number
  extraction from the receipt logs);
- `transferUsdcWithWormholeOnly` (src/transferWormholeOnly.ts): the
  three-phase orchestrator, including the sequence-0 fallback path that
  polls by transaction hash, the mid-run Aptos configuration check, and
  the catch-all error handler;
- `getRequiredEnv` / config loading (src/config.ts).

External effects (chain RPC calls, HTTP lookups, sleeps) are modelled by
oracle environments: each external call's outcome is a field of an
environment structure, and every run returns its result together with the
list of external actions it performed, in order.  JavaScript exceptions
are modelled with `Except JsError`; thrown `Error` objects carry a
`message` and ethers-style errors additionally a `code`.
-/

deriving instance DecidableEq for Except

namespace FluidSdk

/-- A JavaScript error value as the orchestrator's catch block inspects it:
an optional `code` property (ethers sets e.g. `INSUFFICIENT_FUNDS`) and a
`message` string. -/
structure JsError where
  code : Option String
  message : String
deriving Repr, DecidableEq

/-- Result of one attestation-API lookup call (`fetchVaaBySequence` /
`fetchVaaByTxHash`): `.ok (some vaa)` payload available, `.ok none` not yet
available (HTTP 404 or absent `vaa` field), `.error e` a thrown
transport-level error. -/
abbrev LookupResult := Except JsError (Option String)

/-- One external action performed by a run, in program order. -/
inductive Action
  | readEthBalance
  | readUsdcBalance
  | readAllowance
  | submitApprove
  | submitTransferTokens
  | sleep (ms : ℚ)
  | lookupByTxHash
  | lookupBySequence
  | submitCompletionVaa
  | waitDestFinality
deriving Repr, DecidableEq

/-- `backoff = Math.min(backoff * 1.5, 30000)` from the polling loops. -/
def backoffStep (b : ℚ) : ℚ := min (b * (3 / 2)) 30000

/-- The backoff value in force before the (k+1)-st sleep: the initial
backoff, stepped k times. -/
def backoffAt (init : ℚ) : ℕ → ℚ
  | 0 => init
  | k + 1 => backoffStep (backoffAt init k)

/-- Error message thrown by `pollVaa` when the attempt budget is exhausted. -/
def vaaTimeoutMsg (maxRetries : ℕ) : String :=
  "Failed to get VAA after " ++ toString maxRetries ++ " retries"

/-- The `if (vaa) return vaa` truthiness test the polling loops apply to
a lookup outcome: a payload counts as present only when it is a non-empty
string; `null` and thrown errors (caught by `pollVaa`) are absent. -/
def lookupFound : LookupResult → Option String
  | .ok (some v) => if v = "" then none else some v
  | _ => none

/-- The `while (retries < maxRetries)` loop of `pollVaa`
(src/wormholeVaa.ts lines 135-154).  `remaining` is the fuel
`maxRetries - retries`; `retries` is the loop counter, which is also the
index of the next lookup call; `backoff` the current backoff.  Returns the
result, the number of lookup calls made, and the list of sleep durations
performed, in order.  A lookup returning `.ok none` (not yet available)
and a lookup throwing (caught and logged by the source) both fall through
to the retry bookkeeping. -/
def pollVaaGo (lookup : ℕ → LookupResult) (maxRetries : ℕ) :
    ℕ → ℕ → ℚ → Except JsError String × ℕ × List ℚ
  | 0, _, _ => (.error ⟨none, vaaTimeoutMsg maxRetries⟩, 0, [])
  | remaining + 1, retries, backoff =>
    match lookupFound (lookup retries) with
    | some vaa => (.ok vaa, 1, [])
    | none =>
      if retries + 1 < maxRetries then
        let rest := pollVaaGo lookup maxRetries remaining (retries + 1) (backoffStep backoff)
        (rest.1, rest.2.1 + 1, backoff :: rest.2.2)
      else
        (.error ⟨none, vaaTimeoutMsg maxRetries⟩, 1, [])

/-- `pollVaa` (src/wormholeVaa.ts lines 125-157): polls the attestation
API by sequence number until the VAA is ready, with at most `maxRetries`
lookup calls and multiplicative backoff (factor 1.5, capped at 30000 ms)
between attempts.  The lookup oracle gives the outcome of the i-th call.
Note the signature: the poller takes no cancellation signal of any kind;
its behaviour is a pure function of the lookup outcomes and the two
numeric parameters. -/
def pollVaa (lookup : ℕ → LookupResult) (maxRetries : ℕ) (initialBackoff : ℚ) :
    Except JsError String × ℕ × List ℚ :=
  pollVaaGo lookup maxRetries maxRetries 0 initialBackoff

/-- `String.prototype.includes`: does `pat` occur as a substring of `s`? -/
def strContains (s pat : String) : Bool :=
  (List.range (s.length + 1)).any fun i => (s.drop i).take pat.length == pat

/-! ## Source-chain phase: `transferUsdcViaWormhole` (src/wormholeBase.ts) -/

/-- Oracle environment for the source-chain phase: the outcome of each
external call, in the order the source makes them.  Balance and allowance
reads are modelled as plain values (their own transport failures are not
the subject of any claim); transaction submissions may throw
(ethers-style errors such as `INSUFFICIENT_FUNDS`). -/
structure SourceChainEnv where
  /-- `provider.getBalance(signer.address)` in wei. -/
  ethBalance : ℕ
  /-- `usdcContract.balanceOf(signer.address)` in smallest units. -/
  usdcBalance : ℕ
  /-- `usdcContract.allowance(owner, tokenBridge)`, first read. -/
  allowance : ℕ
  /-- `usdcContract.approve(...)`: tx hash if accepted, thrown error otherwise. -/
  approveSubmit : Except JsError String
  /-- `approveTx.wait()` produced a receipt with `status === 1`. -/
  approveReceiptOk : Bool
  /-- i-th allowance re-read of the post-approval propagation loop. -/
  allowanceAfter : ℕ → ℕ
  /-- `tokenBridgeContract.transferTokens(...)`: tx hash if accepted, thrown error otherwise. -/
  transferSubmit : Except JsError String
  /-- `tx.wait()` produced a receipt with `status === 1`. -/
  transferReceiptOk : Bool
  /-- Sequence number found in the receipt logs (`TransferTokens` or
  `LogMessagePublished` event), `none` when no such event is present. -/
  foundSequence : Option ℕ

/-- Result of the source-chain phase: transaction hash and sequence number
(`BigInt(0)` placeholder when no sequence-bearing event was found). -/
structure SourceResult where
  txHash : String
  sequence : ℕ
deriving Repr, DecidableEq

/-- `ethers.parseEther('0.001')`: minimum wei required for gas. -/
def minEthRequired : ℕ := 1000000000000000

/-- `BigInt(Math.floor(parseFloat(amount) * 1_000_000))`: the requested
amount (decimal string, modelled as the rational it denotes) in USDC
smallest units (6 decimals). -/
def amountInSmallestUnit (amount : ℚ) : ℕ := (Int.floor (amount * 1000000)).toNat

/-- First line of the pre-flight gas error (the interpolated balance,
wallet and faucet guidance of the source text does not affect any
control flow and is elided). -/
def insufficientEthMsg : String := "Insufficient ETH for gas fees."

/-- First line of the pre-flight token-balance error (interpolated
balance/wallet details elided); the orchestrator's catch block matches on
the substring "Insufficient USDC" of this message. -/
def insufficientUsdcMsg : String := "Insufficient USDC balance."

/-- Error thrown when the post-approval allowance re-reads stay below the
required amount (trailing guidance text elided). -/
def approvalVerifyFailedMsg (a amt : ℕ) : String :=
  "Approval failed: allowance " ++ toString a ++ " is less than required " ++ toString amt ++ "."

/-- The post-approval allowance propagation loop
(src/wormholeBase.ts lines 103-118): up to 5 re-reads, breaking as soon
as the allowance covers the amount, with a 1000 ms sleep between
attempts.  Returns the last allowance read and the actions performed.
`remaining` is the fuel `5 - idx`. -/
def allowanceRecheckGo (after : ℕ → ℕ) (amt : ℕ) : ℕ → ℕ → ℕ → ℕ × List Action
  | 0, _, last => (last, [])
  | remaining + 1, idx, _ =>
    let a := after idx
    if amt ≤ a then (a, [.readAllowance])
    else if idx + 1 < 5 then
      let rest := allowanceRecheckGo after amt remaining (idx + 1) a
      (rest.1, .readAllowance :: .sleep 1000 :: rest.2)
    else (a, [.readAllowance])

/-- The approval branch (src/wormholeBase.ts lines 79-126), taken only
when the current allowance is below the required amount: submit an
approval for twice the amount, require a successful receipt, sleep
2000 ms, then re-check the allowance with the propagation loop and fail
if it is still insufficient. -/
def approveBranch (env : SourceChainEnv) (amt : ℕ) : Except JsError Unit × List Action :=
  match env.approveSubmit with
  | .error e => (.error e, [.submitApprove])
  | .ok txh =>
    if env.approveReceiptOk then
      let rest := allowanceRecheckGo env.allowanceAfter amt 5 0 env.allowance
      if rest.1 < amt then
        (.error ⟨none, approvalVerifyFailedMsg rest.1 amt⟩,
         .submitApprove :: .sleep 2000 :: rest.2)
      else
        (.ok (), .submitApprove :: .sleep 2000 :: rest.2)
    else
      (.error ⟨none, "Approval transaction failed: " ++ txh⟩, [.submitApprove])

/-- `transferUsdcViaWormhole` (src/wormholeBase.ts lines 21-260): the
source-chain phase.  In order: read the ETH balance and fail fast when it
is below the 0.001 ETH minimum; read the USDC balance and fail fast when
it is below the requested amount; read the allowance and raise it only if
insufficient; submit `transferTokens` and require a successful receipt;
extract the sequence number from the receipt logs, returning the
`BigInt(0)` placeholder when no sequence-bearing event is found (the
catch of that last resort is dead code: its try block cannot throw). -/
def transferUsdcViaWormhole (env : SourceChainEnv) (amount : ℚ) :
    Except JsError SourceResult × List Action :=
  let amt := amountInSmallestUnit amount
  if env.ethBalance < minEthRequired then
    (.error ⟨none, insufficientEthMsg⟩, [.readEthBalance])
  else if env.usdcBalance < amt then
    (.error ⟨none, insufficientUsdcMsg⟩, [.readEthBalance, .readUsdcBalance])
  else
    let auth : Except JsError Unit × List Action :=
      if env.allowance < amt then approveBranch env amt else (.ok (), [])
    let pre : List Action := [.readEthBalance, .readUsdcBalance, .readAllowance] ++ auth.2
    match auth.1 with
    | .error e => (.error e, pre)
    | .ok () =>
      match env.transferSubmit with
      | .error e => (.error e, pre ++ [.submitTransferTokens])
      | .ok txh =>
        if env.transferReceiptOk then
          match env.foundSequence with
          | some s => (.ok ⟨txh, s⟩, pre ++ [.submitTransferTokens])
          | none => (.ok ⟨txh, 0⟩, pre ++ [.submitTransferTokens])
        else
          (.error ⟨none, "Transfer transaction failed: " ++ txh⟩,
           pre ++ [.submitTransferTokens])

/-! ## Configuration (src/config.ts) -/

/-- The configuration record built at module load.  CCTP-specific
optional addresses (unused by the Wormhole-only path) are elided. -/
structure Config where
  baseRpcUrl : String
  aptosRpcUrl : String
  baseSponsorPrivateKey : String
  aptosSponsorPrivateKey : String
  networkType : String
  aptosTokenBridgeAddress : Option String
  aptosUsdcCoinType : Option String
deriving Repr, DecidableEq

/-- `getRequiredEnv` (src/config.ts lines 26-32): reads an environment
variable and throws when it is absent; the JS truthiness test `!value`
also rejects the empty string. -/
def getRequiredEnv (envv : String → Option String) (key : String) : Except JsError String :=
  match envv key with
  | some v =>
    if v = "" then .error ⟨none, "Missing required environment variable: " ++ key⟩
    else .ok v
  | none => .error ⟨none, "Missing required environment variable: " ++ key⟩

/-- `getOptionalEnv` (src/config.ts lines 34-36). -/
def getOptionalEnv (envv : String → Option String) (key : String) : Option String := envv key

/-- JS truthiness of an optional string as the orchestrator's
`!config.aptosTokenBridgeAddress` check sees it: absent or empty is falsy. -/
def isFalsyOpt : Option String → Bool
  | none => true
  | some s => s = ""

/-- `getOptionalEnv('NETWORK_TYPE') || 'Testnet'`. -/
def networkTypeOf (envv : String → Option String) : String :=
  match getOptionalEnv envv "NETWORK_TYPE" with
  | some v => if v = "" then "Testnet" else v
  | none => "Testnet"

/-- The required environment keys read by `getRequiredEnv` at config load. -/
def requiredEnvKeys : List String :=
  ["BASE_RPC_URL", "APTOS_RPC_URL", "BASE_SPONSOR_PRIVATE_KEY", "APTOS_SPONSOR_PRIVATE_KEY"]

/-- Construction of `config` (src/config.ts lines 38-51), given the
process environment: the four required variables are read first and any
absent (or empty) one throws before any chain client can exist. -/
def loadConfig (envv : String → Option String) : Except JsError Config := do
  let base ← getRequiredEnv envv "BASE_RPC_URL"
  let aptos ← getRequiredEnv envv "APTOS_RPC_URL"
  let baseKey ← getRequiredEnv envv "BASE_SPONSOR_PRIVATE_KEY"
  let aptosKey ← getRequiredEnv envv "APTOS_SPONSOR_PRIVATE_KEY"
  .ok { baseRpcUrl := base
        aptosRpcUrl := aptos
        baseSponsorPrivateKey := baseKey
        aptosSponsorPrivateKey := aptosKey
        networkType := networkTypeOf envv
        aptosTokenBridgeAddress := getOptionalEnv envv "APTOS_TOKEN_BRIDGE_ADDRESS"
        aptosUsdcCoinType := getOptionalEnv envv "APTOS_USDC_COIN_TYPE" }

/-! ## Orchestrator: `transferUsdcWithWormholeOnly` (src/transferWormholeOnly.ts) -/

/-- `TransferRequest` (src/types.ts). -/
structure TransferRequest where
  targetChain : String := "Aptos"
  /-- Decimal amount string, modelled as the rational it denotes. -/
  transferAmount : ℚ
  networkType : Option String := none
  recipientAddress : Option String := none

/-- `TransferResult` (src/types.ts): the terminal record. -/
structure TransferResult where
  success : Bool
  sourceTx : Option String := none
  attestationId : Option String := none
  destinationTx : Option String := none
  error : Option String := none
deriving Repr, DecidableEq

/-- Oracle environment for one orchestrator run. -/
structure OrchestratorEnv where
  /-- Outcomes of the source-chain phase's external calls. -/
  srcEnv : SourceChainEnv
  /-- `aptosSigner.address` (default recipient). -/
  aptosSignerAddress : String
  /-- Outcome of the i-th `fetchVaaByTxHash` call of this run. -/
  fetchByTxHash : ℕ → LookupResult
  /-- Outcome of the i-th `fetchVaaBySequence` call of this run. -/
  fetchBySeq : ℕ → LookupResult
  /-- `submitTokenBridgeVaa(...)`: destination tx hash or thrown error. -/
  submitVaaResult : Except JsError String
  /-- `aptosSigner.client.waitForTransaction(...)`. -/
  waitFinality : Except JsError Unit

/-- `request.recipientAddress || aptosSigner.address` (JS truthiness:
an empty recipient string also falls back to the sponsor address). -/
def effectiveRecipient (req : TransferRequest) (aptosSignerAddress : String) : String :=
  match req.recipientAddress with
  | some r => if r = "" then aptosSignerAddress else r
  | none => aptosSignerAddress

/-- Interleaved action trace of a `pollVaa` run with `n` lookup calls and
the given sleeps between them. -/
def pollActions : ℕ → List ℚ → List Action
  | 0, _ => []
  | n + 1, [] => List.replicate (n + 1) .lookupBySequence
  | n + 1, s :: rest => .lookupBySequence :: .sleep s :: pollActions n rest

/-- The tx-hash fallback polling loop of the orchestrator
(src/transferWormholeOnly.ts lines 84-97): `while (retries < maxRetries)`
re-fetches by transaction hash; unlike `pollVaa`, a thrown fetch error is
NOT caught here and propagates to the orchestrator's catch.  The loop's
i-th iteration is overall fetch call `retries + 1` (call 0 was made
before the loop).  `remaining` is the fuel `maxRetries - retries`. -/
def fallbackGo (lookup : ℕ → LookupResult) (maxRetries : ℕ) :
    ℕ → ℕ → ℚ → Except JsError (Option String) × List Action
  | 0, _, _ => (.ok none, [])
  | remaining + 1, retries, backoff =>
    match lookup (retries + 1) with
    | .error e => (.error e, [.lookupByTxHash])
    | .ok found =>
      match lookupFound (.ok found) with
      | some v => (.ok (some v), [.lookupByTxHash])
      | none =>
        if retries + 1 < maxRetries then
          let rest := fallbackGo lookup maxRetries remaining (retries + 1) (backoffStep backoff)
          (rest.1, .lookupByTxHash :: .sleep backoff :: rest.2)
        else
          (.ok none, [.lookupByTxHash])

/-- Error thrown when the tx-hash fallback exhausts its budget
(src/transferWormholeOnly.ts line 100). -/
def fallbackTimeoutMsg (maxRetries : ℕ) (txHash : String) : String :=
  "Failed to get VAA after " ++ toString maxRetries ++ " retries. Transaction: " ++ txHash

/-- Phase 2 of the orchestrator (src/transferWormholeOnly.ts lines
70-114): when the source phase reported sequence 0, fetch the VAA by
transaction hash once and, only if it is not yet available, poll by
transaction hash with the bounded-retry loop; otherwise poll by sequence
number via `pollVaa`. -/
def attestationPhase (env : OrchestratorEnv) (src : SourceResult)
    (maxRetries : ℕ) (initialBackoff : ℚ) : Except JsError String × List Action :=
  if src.sequence = 0 then
    match env.fetchByTxHash 0 with
    | .error e => (.error e, [.lookupByTxHash])
    | .ok found0 =>
      match lookupFound (.ok found0) with
      | some v => (.ok v, [.lookupByTxHash])
      | none =>
        let rest := fallbackGo env.fetchByTxHash maxRetries maxRetries 0 initialBackoff
        match rest.1 with
        | .error e => (.error e, .lookupByTxHash :: rest.2)
        | .ok (some v) => (.ok v, .lookupByTxHash :: rest.2)
        | .ok none =>
          (.error ⟨none, fallbackTimeoutMsg maxRetries src.txHash⟩, .lookupByTxHash :: rest.2)
  else
    let rest := pollVaa env.fetchBySeq maxRetries initialBackoff
    (rest.1, pollActions rest.2.1 rest.2.2)

/-- The configuration error thrown mid-run when the Aptos-side settings
are missing (src/transferWormholeOnly.ts line 122). -/
def missingAptosConfigMsg : String :=
  "Missing Aptos configuration: APTOS_TOKEN_BRIDGE_ADDRESS and APTOS_USDC_COIN_TYPE required"

/-- The `try` part of the orchestrator (src/transferWormholeOnly.ts lines
34-145): phase 1 (source transfer), phase 2 (attestation), the Aptos
configuration check, phase 3 (destination completion and finality wait),
then the success record.  A thrown error at any point aborts the rest
and surfaces as `.error`. -/
def transferUsdcWithWormholeOnlyTry (cfg : Config) (env : OrchestratorEnv)
    (req : TransferRequest) (maxRetries : ℕ) (initialBackoff : ℚ) :
    Except JsError TransferResult × List Action :=
  let src := transferUsdcViaWormhole env.srcEnv req.transferAmount
  match src.1 with
  | .error e => (.error e, src.2)
  | .ok srcRes =>
    let vaa := attestationPhase env srcRes maxRetries initialBackoff
    match vaa.1 with
    | .error e => (.error e, src.2 ++ vaa.2)
    | .ok vaaHex =>
      if isFalsyOpt cfg.aptosTokenBridgeAddress || isFalsyOpt cfg.aptosUsdcCoinType then
        (.error ⟨none, missingAptosConfigMsg⟩, src.2 ++ vaa.2)
      else
        match env.submitVaaResult with
        | .error e => (.error e, src.2 ++ vaa.2 ++ [.submitCompletionVaa])
        | .ok destTx =>
          match env.waitFinality with
          | .error e => (.error e, src.2 ++ vaa.2 ++ [.submitCompletionVaa, .waitDestFinality])
          | .ok () =>
            (.ok { success := true
                   sourceTx := some srcRes.txHash
                   attestationId := some (vaaHex.take 40)
                   destinationTx := some destTx },
             src.2 ++ vaa.2 ++ [.submitCompletionVaa, .waitDestFinality])

/-- The ReferenceError raised by the catch block itself: the
insufficient-funds branch interpolates `baseSigner.address`, but
`baseSigner` is `const`-declared inside the `try` block and is not in
scope in the catch clause, so evaluating the template literal throws. -/
def referenceErrorBaseSigner : JsError :=
  ⟨some "ReferenceError", "baseSigner is not defined"⟩

/-- The orchestrator's catch block (src/transferWormholeOnly.ts lines
147-174).  For errors whose `code` is `INSUFFICIENT_FUNDS` or whose
message contains "insufficient funds", the handler's template literal
references the out-of-scope `baseSigner` and itself throws a
ReferenceError; otherwise a `success:false` result carrying only the
error message is returned (the "Insufficient USDC" branch and the
generic branch build the same shape of record). -/
def handleTransferError (e : JsError) : Except JsError TransferResult :=
  if e.code = some "INSUFFICIENT_FUNDS" || strContains e.message "insufficient funds" then
    .error referenceErrorBaseSigner
  else if strContains e.message "Insufficient USDC" then
    .ok { success := false, error := some e.message }
  else
    .ok { success := false, error := some e.message }

/-- `transferUsdcWithWormholeOnly` (src/transferWormholeOnly.ts lines
29-175): the try part wrapped in the catch-all handler.  Returns the
JS-level outcome (a normal `TransferResult` or a propagated exception)
together with the external actions performed. -/
def transferUsdcWithWormholeOnly (cfg : Config) (env : OrchestratorEnv)
    (req : TransferRequest) (maxRetries : ℕ) (initialBackoff : ℚ) :
    Except JsError TransferResult × List Action :=
  let run := transferUsdcWithWormholeOnlyTry cfg env req maxRetries initialBackoff
  match run.1 with
  | .ok res => (.ok res, run.2)
  | .error e => (handleTransferError e, run.2)

/-! ## Auxiliary definitions for the backoff characterisation -/

/-- The list of sleep durations produced by `n` consecutive misses
starting from backoff `b`: `[b, step b, step (step b), …]`. -/
def backoffList (b : ℚ) : ℕ → List ℚ
  | 0 => []
  | n + 1 => b :: backoffList (backoffStep b) n

/-! ## Concrete oracle instances used by witnesses and counterexamples -/

/-- A source-chain environment in which every call succeeds: ample ETH
and USDC, an already-sufficient allowance, an accepted and confirmed
`transferTokens`, and a `TransferTokens` event carrying sequence 42. -/
def happySourceEnv : SourceChainEnv where
  ethBalance := 10000000000000000
  usdcBalance := 10000000
  allowance := 10000000
  approveSubmit := .ok "0xapprovetx"
  approveReceiptOk := true
  allowanceAfter := fun _ => 10000000
  transferSubmit := .ok "0xsrctx"
  transferReceiptOk := true
  foundSequence := some 42

/-- A fully-populated configuration. -/
def cfgGood : Config where
  baseRpcUrl := "http://base.rpc"
  aptosRpcUrl := "http://aptos.rpc"
  baseSponsorPrivateKey := "baseKey"
  aptosSponsorPrivateKey := "aptosKey"
  networkType := "Testnet"
  aptosTokenBridgeAddress := some "0xbridge"
  aptosUsdcCoinType := some "0x1::coin::USDC"

/-- `cfgGood` with the Aptos token-bridge address absent. -/
def cfgMissingBridge : Config :=
  { cfgGood with aptosTokenBridgeAddress := none }

/-- A 1.0-USDC transfer request with no explicit recipient. -/
def reqOne : TransferRequest where
  transferAmount := 1

/-- Orchestrator environment in which everything succeeds: the VAA is
available on the very first by-sequence lookup and the destination
completion confirms. -/
def envHappy : OrchestratorEnv where
  srcEnv := happySourceEnv
  aptosSignerAddress := "0xaptossigner"
  fetchByTxHash := fun _ => .ok none
  fetchBySeq := fun _ => .ok (some "0xABCVAA")
  submitVaaResult := .ok "0xDEFdesttx"
  waitFinality := .ok ()

/-- Orchestrator environment in which phase 1 succeeds but the
attestation never becomes available: every lookup returns
"not yet available". -/
def envAttestationTimeout : OrchestratorEnv :=
  { envHappy with fetchBySeq := fun _ => .ok none }

/-- Orchestrator environment in which the `transferTokens` submission is
rejected by ethers with an `INSUFFICIENT_FUNDS` error. -/
def envInsufficientFunds : OrchestratorEnv :=
  { envHappy with
    srcEnv := { happySourceEnv with
      transferSubmit :=
        .error ⟨some "INSUFFICIENT_FUNDS", "insufficient funds for intrinsic transaction cost"⟩ } }

/-- Orchestrator environment in which the receipt carries no
sequence-bearing event and the VAA becomes available on the second
by-transaction-hash lookup. -/
def envNoSequence : OrchestratorEnv :=
  { envHappy with
    srcEnv := { happySourceEnv with foundSequence := none }
    fetchByTxHash := fun i => if i = 0 then .ok none else .ok (some "0xFALLBACKVAA") }

/-- By-sequence lookup stub that always answers "not yet available". -/
def lookupAlwaysNone : ℕ → LookupResult := fun _ => .ok none

/-- By-sequence lookup stub: unavailable on the first call, available on
the second. -/
def lookupFoundAtTwo : ℕ → LookupResult :=
  fun i => if i = 0 then .ok none else .ok (some "0xVAA")

/-- By-sequence lookup stub: unavailable on the first two calls,
available on the third. -/
def lookupFoundAtThree : ℕ → LookupResult :=
  fun i => if i < 2 then .ok none else .ok (some "0xVAA")

/-- A process environment in which no variable is set. -/
def emptyProcessEnv : String → Option String := fun _ => none

/-- `happySourceEnv` with only 0.1 USDC of balance (ample gas). -/
def envLowUsdc : SourceChainEnv :=
  { happySourceEnv with usdcBalance := 100000 }

/-- Number of attestation-lookup calls (by transaction hash or by
sequence) recorded in an action trace. -/
def lookupCount (l : List Action) : ℕ :=
  l.count .lookupByTxHash + l.count .lookupBySequence

/-!
# Theorems

Helper lemmas first (shared between claims), then one theorem per claim,
each preceded by a doc comment naming the claim.
-/

/-- Stepping a capped backoff is the same as capping the stepped raw
value: `min` absorbs through multiplication by 3/2 at the 30000 ceiling. -/
theorem backoffStep_min_absorb (a : ℚ) :
    backoffStep (min a 30000) = min (a * (3 / 2)) 30000 := by
  unfold backoffStep
  rcases le_total a 30000 with h | h
  · rw [min_eq_left h]
  · rw [min_eq_right h]
    rw [min_eq_right (by norm_num : (30000 : ℚ) ≤ 30000 * (3 / 2))]
    rw [min_eq_right (by nlinarith : (30000 : ℚ) ≤ a * (3 / 2))]

/-- Closed form of the backoff in force before the (k+1)-st sleep (for
every sleep after the first): the raw geometric value capped at 30000. -/
theorem backoffAt_closed (init : ℚ) (k : ℕ) :
    backoffAt init (k + 1) = min (init * (3 / 2) ^ (k + 1)) 30000 := by
  induction k with
  | zero => simp [backoffAt, backoffStep]
  | succ k ih =>
    show backoffStep (backoffAt init (k + 1)) = _
    rw [ih, backoffStep_min_absorb, mul_assoc, ← pow_succ]

/-- `backoffAt` shifted by one step. -/
theorem backoffAt_step (b : ℚ) (k : ℕ) :
    backoffAt (backoffStep b) k = backoffAt b (k + 1) := by
  induction k with
  | zero => rfl
  | succ k ih => show backoffStep _ = backoffStep _; rw [ih]

/-- The sleep list of `n` consecutive misses is the first `n` values of
`backoffAt`. -/
theorem backoffList_eq_map (b : ℚ) (n : ℕ) :
    backoffList b n = (List.range n).map (backoffAt b) := by
  induction n generalizing b with
  | zero => rfl
  | succ n ih =>
    rw [List.range_succ_eq_map]
    show b :: backoffList (backoffStep b) n = _
    rw [ih, List.map_cons, List.map_map]
    refine congrArg₂ _ rfl (List.map_congr_left ?_)
    intro k _
    exact backoffAt_step b k

/-- When no lookup ever finds a payload, the polling loop runs its full
budget: starting with `remaining` budgeted attempts it makes exactly
`remaining` calls, sleeps `remaining - 1` times with the stepped
backoffs, and throws the timeout error. -/
theorem pollVaaGo_noFound (lookup : ℕ → LookupResult) (maxRetries : ℕ)
    (h : ∀ i, lookupFound (lookup i) = none) :
    ∀ remaining retries backoff, remaining + retries = maxRetries → 0 < remaining →
      pollVaaGo lookup maxRetries remaining retries backoff =
        (.error ⟨none, vaaTimeoutMsg maxRetries⟩, remaining, backoffList backoff (remaining - 1)) := by
  intro remaining
  induction remaining with
  | zero => intro retries backoff _ h0; exact absurd h0 (lt_irrefl 0)
  | succ r ih =>
    intro retries backoff hsum _
    simp only [pollVaaGo, h retries]
    rcases Nat.eq_zero_or_pos r with hr | hr
    · subst hr
      have hng : ¬ (retries + 1 < maxRetries) := by omega
      simp [hng, backoffList]
    · have hg : retries + 1 < maxRetries := by omega
      rw [if_pos hg, ih (retries + 1) (backoffStep backoff) (by omega) hr]
      obtain ⟨s, rfl⟩ : ∃ s, r = s + 1 := ⟨r - 1, by omega⟩
      simp [backoffList]

/-- When the first `k` lookups miss and lookup `k` finds a payload, the
polling loop started at attempt `retries ≤ k` returns that payload after
exactly `k - retries + 1` calls, with the stepped backoff sleeps between
them. -/
theorem pollVaaGo_found (lookup : ℕ → LookupResult) (maxRetries k : ℕ) (v : String)
    (hmiss : ∀ i, i < k → lookupFound (lookup i) = none)
    (hfound : lookupFound (lookup k) = some v) :
    ∀ remaining retries backoff, remaining + retries = maxRetries → retries ≤ k →
      k < maxRetries →
      pollVaaGo lookup maxRetries remaining retries backoff =
        (.ok v, k - retries + 1, backoffList backoff (k - retries)) := by
  intro remaining
  induction remaining with
  | zero => intro retries backoff hsum hrk hk; exfalso; omega
  | succ r ih =>
    intro retries backoff hsum hrk hk
    rcases eq_or_lt_of_le hrk with heq | hlt
    · subst heq
      simp only [pollVaaGo, hfound]
      simp [backoffList]
    · simp only [pollVaaGo, hmiss retries hlt]
      have hg : retries + 1 < maxRetries := by omega
      rw [if_pos hg, ih (retries + 1) (backoffStep backoff) (by omega) (by omega) hk]
      have h2 : k - retries = k - (retries + 1) + 1 := by omega
      rw [h2]
      simp [backoffList]

/-- Every run of the polling loop either returns a payload or fails with
exactly the timeout error: no other failure (in particular no
cancellation-specific one) is in its range. -/
theorem pollVaaGo_result_shape (lookup : ℕ → LookupResult) (maxRetries : ℕ) :
    ∀ remaining retries backoff,
      (∃ v, (pollVaaGo lookup maxRetries remaining retries backoff).1 = .ok v) ∨
      (pollVaaGo lookup maxRetries remaining retries backoff).1 =
        .error ⟨none, vaaTimeoutMsg maxRetries⟩ := by
  intro remaining
  induction remaining with
  | zero => intro retries backoff; exact .inr rfl
  | succ r ih =>
    intro retries backoff
    rcases hf : lookupFound (lookup retries) with _ | v
    · simp only [pollVaaGo, hf]
      by_cases hg : retries + 1 < maxRetries
      · rw [if_pos hg]
        exact ih (retries + 1) (backoffStep backoff)
      · rw [if_neg hg]
        exact .inr rfl
    · simp only [pollVaaGo, hf]
      exact .inl ⟨v, rfl⟩

/-- C2: For every `maxRetries ≥ 1` and every lookup that always answers
"not yet available" (null), `pollVaa` makes exactly `maxRetries` lookup
calls — never more — and then fails with the attestation-timeout error. -/
theorem pollVaa_timeout_exact_budget (lookup : ℕ → LookupResult) (maxRetries : ℕ)
    (initialBackoff : ℚ) (hmr : 1 ≤ maxRetries) (hnull : ∀ i, lookup i = .ok none) :
    pollVaa lookup maxRetries initialBackoff =
      (.error ⟨none, vaaTimeoutMsg maxRetries⟩, maxRetries,
       backoffList initialBackoff (maxRetries - 1)) := by
  have h : ∀ i, lookupFound (lookup i) = none := fun i => by rw [hnull i]; rfl
  exact pollVaaGo_noFound lookup maxRetries h maxRetries 0 initialBackoff (by omega) (by omega)

/-- Witness for C2 at `maxRetries = 3`: exactly 3 calls, then the
timeout error. -/
theorem pollVaa_timeout_exact_budget_witness :
    pollVaa lookupAlwaysNone 3 2000 =
      (.error ⟨none, vaaTimeoutMsg 3⟩, 3, backoffList 2000 2) :=
  pollVaa_timeout_exact_budget lookupAlwaysNone 3 2000 (by omega) (fun _ => rfl)

/-- C3 (counterexample): with `initialBackoff = 50000` and the payload
available on the second call, the single recorded sleep is the raw
50000 ms — not the claimed value `min 50000 30000 = 30000`: the cap is
not applied to the first sleep. -/
theorem pollVaa_first_sleep_uncapped :
    pollVaa lookupFoundAtTwo 2 50000 = (.ok "0xVAA", 2, [50000]) ∧
    (50000 : ℚ) ≠ min 50000 30000 := by
  constructor
  · norm_num [pollVaa, pollVaaGo, lookupFoundAtTwo, lookupFound]
    decide
  · norm_num

/-- C3 (amended): when the lookup misses on the first `N - 1` calls and
returns a payload on call `N ≤ maxRetries`, `pollVaa` returns that
payload after exactly `N` calls; the sleeps between consecutive calls
are `initialBackoff` (taken raw, not capped) followed by
`min (initialBackoff * 1.5^k) 30000` for `k = 1, 2, …`: the 30000 ms
ceiling applies to every sleep after the first. -/
theorem pollVaa_success_backoff (lookup : ℕ → LookupResult) (maxRetries N : ℕ)
    (initialBackoff : ℚ) (v : String) (hN : 1 ≤ N) (hNmr : N ≤ maxRetries)
    (hmiss : ∀ i, i < N - 1 → lookup i = .ok none)
    (hfound : lookup (N - 1) = .ok (some v)) (hv : v ≠ "") :
    pollVaa lookup maxRetries initialBackoff =
      (.ok v, N,
       (List.range (N - 1)).map fun k =>
         if k = 0 then initialBackoff else min (initialBackoff * (3 / 2) ^ k) 30000) := by
  have hf : lookupFound (lookup (N - 1)) = some v := by
    rw [hfound]; simp [lookupFound, hv]
  have hm : ∀ i, i < N - 1 → lookupFound (lookup i) = none := fun i hi => by
    rw [hmiss i hi]; rfl
  have hrun := pollVaaGo_found lookup maxRetries (N - 1) v hm hf maxRetries 0 initialBackoff
    (by omega) (by omega) (by omega)
  rw [pollVaa, hrun, Nat.sub_zero, backoffList_eq_map]
  have hN1 : N - 1 + 1 = N := by omega
  rw [hN1]
  refine congrArg _ (congrArg _ (List.map_congr_left ?_))
  intro k _
  cases k with
  | zero => rfl
  | succ k => rw [backoffAt_closed]; simp

/-- Witness for C3 (amended) at `N = 3`, `maxRetries = 5`,
`initialBackoff = 2000`. -/
theorem pollVaa_success_backoff_witness :
    pollVaa lookupFoundAtThree 5 2000 =
      (.ok "0xVAA", 3,
       (List.range 2).map fun k =>
         if k = 0 then (2000 : ℚ) else min (2000 * (3 / 2) ^ k) 30000) :=
  pollVaa_success_backoff lookupFoundAtThree 5 3 2000 "0xVAA" (by omega) (by omega)
    (fun i hi => by interval_cases i <;> rfl) rfl (by decide)

/-- C9 (counterexample): a concrete failing run with `maxRetries = 2`
and a 4000 ms backoff completes its full backoff sleep (the trace
records the uninterrupted 4000 ms wait) and fails with the timeout
error — there is no cancellation-specific failure, and `pollVaa` takes
no cancellation signal that could interrupt the sleep. -/
theorem pollVaa_no_cancellation_counterexample :
    pollVaa lookupAlwaysNone 2 4000 =
      (.error ⟨none, vaaTimeoutMsg 2⟩, 2, [4000]) := by
  norm_num [pollVaa, pollVaaGo, lookupAlwaysNone, lookupFound, backoffStep]

/-- C9 (amended): `pollVaa` offers no cancellation: it is a pure
function of the lookup outcomes and its numeric parameters, with no
cancellation input; every run either returns a payload or fails with
exactly the attestation-timeout error, never with a
cancellation-specific failure. -/
theorem pollVaa_result_shape (lookup : ℕ → LookupResult) (maxRetries : ℕ)
    (initialBackoff : ℚ) :
    (∃ v, (pollVaa lookup maxRetries initialBackoff).1 = .ok v) ∨
    (pollVaa lookup maxRetries initialBackoff).1 =
      .error ⟨none, vaaTimeoutMsg maxRetries⟩ :=
  pollVaaGo_result_shape lookup maxRetries maxRetries 0 initialBackoff

/-- Actions of the allowance propagation loop: only allowance re-reads
and 1000 ms sleeps. -/
theorem allowanceRecheckGo_actions (after : ℕ → ℕ) (amt : ℕ) :
    ∀ remaining idx last x, x ∈ (allowanceRecheckGo after amt remaining idx last).2 →
      x = .readAllowance ∨ x = .sleep 1000 := by
  intro remaining
  induction remaining with
  | zero => intro idx last x hx; simp [allowanceRecheckGo] at hx
  | succ r ih =>
    intro idx last x hx
    simp only [allowanceRecheckGo] at hx
    split at hx
    · simp at hx; exact .inl hx
    · split at hx
      · simp only [List.mem_cons] at hx
        rcases hx with h | h | h
        · exact .inl h
        · exact .inr h
        · exact ih _ _ x h
      · simp at hx; exact .inl hx

/-- Actions of the approval branch: the approval submission, the fixed
sleeps, and allowance re-reads — nothing else. -/
theorem approveBranch_actions (env : SourceChainEnv) (amt : ℕ) :
    ∀ x ∈ (approveBranch env amt).2,
      x = .submitApprove ∨ x = .sleep 2000 ∨ x = .readAllowance ∨ x = .sleep 1000 := by
  intro x hx
  simp only [approveBranch] at hx
  split at hx
  · simp at hx; exact .inl hx
  · split at hx
    · split at hx <;>
      · simp only [List.mem_cons] at hx
        rcases hx with h | h | h
        · exact .inl h
        · exact .inr (.inl h)
        · rcases allowanceRecheckGo_actions env.allowanceAfter amt 5 0 env.allowance x h with
            h1 | h1
          · exact .inr (.inr (.inl h1))
          · exact .inr (.inr (.inr h1))
    · simp at hx; exact .inl hx

/-- An action that is neither an allowance re-read nor a 1000 ms sleep
never appears in the propagation loop trace. -/
theorem allowanceRecheckGo_notMem (after : ℕ → ℕ) (amt : ℕ) (x : Action)
    (h1 : x ≠ .readAllowance) (h2 : x ≠ .sleep 1000) :
    ∀ remaining idx last, x ∉ (allowanceRecheckGo after amt remaining idx last).2 := by
  intro remaining idx last hx
  rcases allowanceRecheckGo_actions after amt remaining idx last x hx with h | h
  · exact h1 h
  · exact h2 h

/-- An action outside the approval branch vocabulary never appears in
its trace. -/
theorem approveBranch_notMem (env : SourceChainEnv) (amt : ℕ) (x : Action)
    (h1 : x ≠ .submitApprove) (h2 : x ≠ .sleep 2000)
    (h3 : x ≠ .readAllowance) (h4 : x ≠ .sleep 1000) :
    x ∉ (approveBranch env amt).2 := by
  intro hx
  rcases approveBranch_actions env amt x hx with h | h | h | h
  · exact h1 h
  · exact h2 h
  · exact h3 h
  · exact h4 h

/-- An action outside the source-phase vocabulary (in particular any
attestation lookup or destination-chain call) never appears in the
source-phase trace. -/
theorem transferSource_notMem (env : SourceChainEnv) (amount : ℚ) (x : Action)
    (h1 : x ≠ .readEthBalance) (h2 : x ≠ .readUsdcBalance) (h3 : x ≠ .readAllowance)
    (h4 : x ≠ .submitApprove) (h5 : x ≠ .submitTransferTokens)
    (h6 : x ≠ .sleep 2000) (h7 : x ≠ .sleep 1000) :
    x ∉ (transferUsdcViaWormhole env amount).2 := by
  have hauth : x ∉ (if env.allowance < amountInSmallestUnit amount then
      approveBranch env (amountInSmallestUnit amount)
      else (Except.ok (), ([] : List Action))).2 := by
    split
    · exact approveBranch_notMem env (amountInSmallestUnit amount) x h4 h6 h3 h7
    · simp
  simp only [transferUsdcViaWormhole]
  split
  · simp [h1]
  · split
    · simp [h1, h2]
    · rcases hA : (if env.allowance < amountInSmallestUnit amount then
            approveBranch env (amountInSmallestUnit amount)
            else (Except.ok (), ([] : List Action))).1 with e | u <;>
        rcases hT : env.transferSubmit with e2 | txh <;>
        rcases hS : env.foundSequence with _ | s <;>
        rcases hR : env.transferReceiptOk <;>
        simp [hA, hT, hS, hR, List.mem_append, h1, h2, h3, h5, hauth]

/-- A successful source phase reports the sequence found in the receipt
logs (0 when absent) and has submitted exactly the transfer transaction. -/
theorem transferSource_ok_shape (env : SourceChainEnv) (amount : ℚ) (src : SourceResult) :
    (transferUsdcViaWormhole env amount).1 = .ok src →
      src.sequence = env.foundSequence.getD 0 ∧
      Action.submitTransferTokens ∈ (transferUsdcViaWormhole env amount).2 := by
  simp only [transferUsdcViaWormhole]
  split
  · intro h; exact absurd h (by simp)
  · split
    · intro h; exact absurd h (by simp)
    · rcases hA : (if env.allowance < amountInSmallestUnit amount then
            approveBranch env (amountInSmallestUnit amount)
            else (Except.ok (), ([] : List Action))).1 with e | u <;>
        rcases hT : env.transferSubmit with e2 | txh <;>
        rcases hS : env.foundSequence with _ | s <;>
        rcases hR : env.transferReceiptOk <;>
        simp [hA, hT, hS, hR] <;>
        (rintro rfl; simp)

/-- C5: when the source-chain token balance is below the requested
amount but gas is sufficient, the source phase fails with the
insufficient-USDC reason (distinct from the insufficient-gas reason)
after only the two balance reads: no approval and no `transferTokens`
transaction is ever submitted. -/
theorem sourceTransfer_insufficient_token_balance (env : SourceChainEnv) (amount : ℚ)
    (hgas : minEthRequired ≤ env.ethBalance)
    (hbal : env.usdcBalance < amountInSmallestUnit amount) :
    transferUsdcViaWormhole env amount =
      (.error ⟨none, insufficientUsdcMsg⟩, [.readEthBalance, .readUsdcBalance]) ∧
    insufficientUsdcMsg ≠ insufficientEthMsg ∧
    Action.submitTransferTokens ∉ (transferUsdcViaWormhole env amount).2 ∧
    Action.submitApprove ∉ (transferUsdcViaWormhole env amount).2 ∧
    (∀ (e : SourceChainEnv) (a : ℚ),
      Action.submitTransferTokens ∈ (transferUsdcViaWormhole e a).2 →
      ((transferUsdcViaWormhole e a).2).take 3 =
        [.readEthBalance, .readUsdcBalance, .readAllowance]) := by
  have hn : ¬ env.ethBalance < minEthRequired := by omega
  have heq : transferUsdcViaWormhole env amount =
      (.error ⟨none, insufficientUsdcMsg⟩, [.readEthBalance, .readUsdcBalance]) := by
    simp only [transferUsdcViaWormhole, if_neg hn, if_pos hbal]
  refine ⟨heq, by decide, by rw [heq]; decide, by rw [heq]; decide, ?_⟩
  intro e a
  simp only [transferUsdcViaWormhole]
  split
  · intro hmem; exact absurd hmem (by decide)
  · split
    · intro hmem; exact absurd hmem (by decide)
    · rcases hA : (if e.allowance < amountInSmallestUnit a then
            approveBranch e (amountInSmallestUnit a)
            else (Except.ok (), ([] : List Action))).1 with er | u <;>
        rcases hT : e.transferSubmit with e2 | txh <;>
        rcases hS : e.foundSequence with _ | sq <;>
        rcases hR : e.transferReceiptOk <;>
        (intro hmem; simp [hA, hT, hS, hR, List.take])

/-- Witness for C5: 0.1 USDC of balance against a 1.0 USDC request. -/
theorem sourceTransfer_insufficient_token_balance_witness :
    transferUsdcViaWormhole envLowUsdc 1 =
      (.error ⟨none, insufficientUsdcMsg⟩, [.readEthBalance, .readUsdcBalance]) :=
  (sourceTransfer_insufficient_token_balance envLowUsdc 1
    (by norm_num [envLowUsdc, happySourceEnv, minEthRequired])
    (by norm_num [envLowUsdc, happySourceEnv, amountInSmallestUnit])).1

/-- C7: when the recorded allowance already covers the requested amount,
the run submits zero allowance-raising (approve) transactions. -/
theorem ensureAuthorization_idempotent (env : SourceChainEnv) (amount : ℚ)
    (h : amountInSmallestUnit amount ≤ env.allowance) :
    ((transferUsdcViaWormhole env amount).2).count .submitApprove = 0 := by
  apply List.count_eq_zero_of_not_mem
  have hn : ¬ env.allowance < amountInSmallestUnit amount := by omega
  simp only [transferUsdcViaWormhole]
  split
  · simp
  · split
    · simp
    · rcases hT : env.transferSubmit with e2 | txh <;>
        rcases hS : env.foundSequence with _ | s <;>
        rcases hR : env.transferReceiptOk <;>
        simp [hT, hS, hR, if_neg hn]

/-- Witness for C7: allowance 10 USDC against a 1.0 USDC request —
no approval transaction in the trace. -/
theorem ensureAuthorization_idempotent_witness :
    ((transferUsdcViaWormhole happySourceEnv 1).2).count .submitApprove = 0 :=
  ensureAuthorization_idempotent happySourceEnv 1
    (by norm_num [happySourceEnv, amountInSmallestUnit])

/-- The tx-hash fallback loop never performs a by-sequence lookup. -/
theorem fallbackGo_noSeqLookup (lookup : ℕ → LookupResult) (maxRetries : ℕ) :
    ∀ remaining retries backoff,
      Action.lookupBySequence ∉ (fallbackGo lookup maxRetries remaining retries backoff).2 := by
  intro remaining
  induction remaining with
  | zero => intro retries backoff; simp [fallbackGo]
  | succ r ih =>
    intro retries backoff
    simp only [fallbackGo]
    rcases h : lookup (retries + 1) with e | f
    · simp
    · rcases hf : lookupFound (.ok f) with _ | v
      · simp only [hf]
        split
        · intro hx
          simp only [List.mem_cons] at hx
          rcases hx with h1 | h1 | h1
          · exact Action.noConfusion h1
          · exact Action.noConfusion h1
          · exact ih (retries + 1) (backoffStep backoff) h1
        · simp
      · simp [hf]

/-- When the first `k` tx-hash lookups (including the pre-loop call 0)
miss and call `k` finds a payload, the fallback loop started at loop
counter `retries < k` returns the payload and performs exactly
`k - retries` lookups. -/
theorem fallbackGo_found (lookup : ℕ → LookupResult) (maxRetries k : ℕ) (v : String)
    (hmiss : ∀ i, i < k → lookup i = .ok none)
    (hfound : lookup k = .ok (some v)) (hv : v ≠ "") :
    ∀ remaining retries backoff, remaining + retries = maxRetries → retries < k →
      k ≤ maxRetries →
      (fallbackGo lookup maxRetries remaining retries backoff).1 = .ok (some v) ∧
      ((fallbackGo lookup maxRetries remaining retries backoff).2).count .lookupByTxHash =
        k - retries := by
  intro remaining
  induction remaining with
  | zero => intro retries backoff hsum hrk hk; exfalso; omega
  | succ r ih =>
    intro retries backoff hsum hrk hk
    by_cases heq : retries + 1 = k
    · have hkf : lookup (retries + 1) = .ok (some v) := by rw [heq]; exact hfound
      simp only [fallbackGo, hkf, lookupFound, if_neg hv]
      refine ⟨trivial, ?_⟩
      have hkr : k - retries = 1 := by omega
      rw [hkr]
      decide
    · have hlt : retries + 1 < k := by omega
      simp only [fallbackGo, hmiss (retries + 1) hlt, lookupFound]
      have hg : retries + 1 < maxRetries := by omega
      rw [if_pos hg]
      have hrec := ih (retries + 1) (backoffStep backoff) (by omega) (by omega) hk
      refine ⟨hrec.1, ?_⟩
      simp only [List.count_cons, hrec.2]
      have e1 : (Action.sleep backoff == Action.lookupByTxHash) = false := rfl
      have e2 : (Action.lookupByTxHash == Action.lookupByTxHash) = true := rfl
      rw [e1, e2]
      simp
      omega

/-- When the source phase reported sequence 0, the attestation phase
performs no lookup by sequence number. -/
theorem attestationPhase_seqZero_noSeqLookup (env : OrchestratorEnv) (src : SourceResult)
    (maxRetries : ℕ) (initialBackoff : ℚ) (h : src.sequence = 0) :
    Action.lookupBySequence ∉ (attestationPhase env src maxRetries initialBackoff).2 := by
  simp only [attestationPhase, h, if_pos]
  rcases h0 : env.fetchByTxHash 0 with e | f
  · simp
  · rcases hf : lookupFound (.ok f) with _ | v
    · simp only [hf]
      rcases hfb : (fallbackGo env.fetchByTxHash maxRetries maxRetries 0 initialBackoff).1 with
        e2 | o
      · simp only [hfb, List.mem_cons]
        intro hx
        rcases hx with h1 | h1
        · exact Action.noConfusion h1
        · exact fallbackGo_noSeqLookup env.fetchByTxHash maxRetries maxRetries 0 initialBackoff h1
      · rcases o with _ | v2 <;>
        · simp only [hfb, List.mem_cons]
          intro hx
          rcases hx with h1 | h1
          · exact Action.noConfusion h1
          · exact fallbackGo_noSeqLookup env.fetchByTxHash maxRetries maxRetries 0 initialBackoff h1
    · simp [hf]

/-- The orchestrator's catch wrapper leaves the action trace of the try
part unchanged. -/
theorem orchestratorActions_eq (cfg : Config) (env : OrchestratorEnv) (req : TransferRequest)
    (maxRetries : ℕ) (initialBackoff : ℚ) :
    (transferUsdcWithWormholeOnly cfg env req maxRetries initialBackoff).2 =
    (transferUsdcWithWormholeOnlyTry cfg env req maxRetries initialBackoff).2 := by
  rcases h : (transferUsdcWithWormholeOnlyTry cfg env req maxRetries initialBackoff).1 with
    e | res <;>
    simp [transferUsdcWithWormholeOnly, h]

/-- Every action of the try part comes from the source phase, from the
attestation phase of a successful source result, or is one of the two
destination-phase calls. -/
theorem tryActions_cases (cfg : Config) (env : OrchestratorEnv) (req : TransferRequest)
    (maxRetries : ℕ) (initialBackoff : ℚ) :
    ∀ x ∈ (transferUsdcWithWormholeOnlyTry cfg env req maxRetries initialBackoff).2,
      x ∈ (transferUsdcViaWormhole env.srcEnv req.transferAmount).2 ∨
      (∃ srcRes, (transferUsdcViaWormhole env.srcEnv req.transferAmount).1 = .ok srcRes ∧
        x ∈ (attestationPhase env srcRes maxRetries initialBackoff).2) ∨
      x = .submitCompletionVaa ∨ x = .waitDestFinality := by
  intro x hx
  simp only [transferUsdcWithWormholeOnlyTry] at hx
  rcases hsrc : (transferUsdcViaWormhole env.srcEnv req.transferAmount).1 with e | srcRes <;>
    simp only [hsrc] at hx
  · exact .inl hx
  · rcases hvaa : (attestationPhase env srcRes maxRetries initialBackoff).1 with e2 | vaaHex <;>
      simp only [hvaa] at hx
    · rcases List.mem_append.mp hx with h1 | h1
      · exact .inl h1
      · exact .inr (.inl ⟨srcRes, rfl, h1⟩)
    · split at hx <;>
      [skip;
       rcases hsub : env.submitVaaResult with e3 | destTx <;> simp only [hsub] at hx]
      · rcases List.mem_append.mp hx with h1 | h1
        · exact .inl h1
        · exact .inr (.inl ⟨srcRes, rfl, h1⟩)
      · rcases List.mem_append.mp hx with h1 | h1
        · rcases List.mem_append.mp h1 with h2 | h2
          · exact .inl h2
          · exact .inr (.inl ⟨srcRes, rfl, h2⟩)
        · simp only [List.mem_singleton] at h1
          exact .inr (.inr (.inl h1))
      · rcases hw : env.waitFinality with e4 | u <;> simp only [hw] at hx <;>
        · rcases List.mem_append.mp hx with h1 | h1
          · rcases List.mem_append.mp h1 with h2 | h2
            · exact .inl h2
            · exact .inr (.inl ⟨srcRes, rfl, h2⟩)
          · simp only [List.mem_cons, List.not_mem_nil, or_false] at h1
            rcases h1 with h2 | h2
            · exact .inr (.inr (.inl h2))
            · exact .inr (.inr (.inr h2))

/-- A normal return of the try part is always the success record. -/
theorem tryPart_ok_success (cfg : Config) (env : OrchestratorEnv) (req : TransferRequest)
    (maxRetries : ℕ) (initialBackoff : ℚ) (res : TransferResult) :
    (transferUsdcWithWormholeOnlyTry cfg env req maxRetries initialBackoff).1 = .ok res →
      res.success = true := by
  simp only [transferUsdcWithWormholeOnlyTry]
  rcases hsrc : (transferUsdcViaWormhole env.srcEnv req.transferAmount).1 with e | srcRes <;>
    simp only [hsrc]
  · intro h; exact Except.noConfusion h
  · rcases hvaa : (attestationPhase env srcRes maxRetries initialBackoff).1 with e2 | vaaHex <;>
      simp only [hvaa]
    · intro h; exact Except.noConfusion h
    · split
      · intro h; exact Except.noConfusion h
      · rcases hsub : env.submitVaaResult with e3 | destTx <;> simp only [hsub]
        · intro h; exact Except.noConfusion h
        · rcases hw : env.waitFinality with e4 | u <;> simp only [hw]
          · intro h; exact Except.noConfusion h
          · intro h
            injection h with h
            subst h
            rfl

/-- A normal return of the catch handler is always a failure record
carrying only the error message: `sourceTx` is left unset. -/
theorem handleTransferError_ok (e : JsError) (r : TransferResult) :
    handleTransferError e = .ok r →
      r.success = false ∧ r.sourceTx = none ∧ r.error = some e.message := by
  unfold handleTransferError
  split
  · intro h; exact Except.noConfusion h
  · split <;> (intro h; injection h with h; subst h; exact ⟨rfl, rfl, rfl⟩)

/-- C10: sequence 0 is a sentinel meaning "no identifier": the source
phase returns 0 both when no sequence-bearing event is found in the
receipt (placeholder) and when an event genuinely carries sequence 0 —
the two runs are fully indistinguishable — and in either situation the
orchestrator queries the attestation exclusively by transaction hash,
never performing a lookup by sequence number. -/
theorem sequence_zero_sentinel (cfg : Config) (env : OrchestratorEnv) (req : TransferRequest)
    (maxRetries : ℕ) (initialBackoff : ℚ)
    (h0 : env.srcEnv.foundSequence = none ∨ env.srcEnv.foundSequence = some 0) :
    (∀ src, (transferUsdcViaWormhole env.srcEnv req.transferAmount).1 = .ok src →
      src.sequence = 0) ∧
    ((transferUsdcWithWormholeOnly cfg env req maxRetries initialBackoff).2).count
      .lookupBySequence = 0 ∧
    (∀ (e : SourceChainEnv) (a : ℚ),
      transferUsdcViaWormhole { e with foundSequence := some 0 } a =
      transferUsdcViaWormhole { e with foundSequence := none } a) := by
  have hseq : ∀ src, (transferUsdcViaWormhole env.srcEnv req.transferAmount).1 = .ok src →
      src.sequence = 0 := by
    intro src hsrc
    have h1 := (transferSource_ok_shape env.srcEnv req.transferAmount src hsrc).1
    rcases h0 with h | h <;> rw [h] at h1 <;> simpa using h1
  refine ⟨hseq, ?_, ?_⟩
  · apply List.count_eq_zero_of_not_mem
    rw [orchestratorActions_eq]
    intro hx
    rcases tryActions_cases cfg env req maxRetries initialBackoff _ hx with
      h1 | ⟨srcRes, hs, h1⟩ | h1 | h1
    · exact transferSource_notMem env.srcEnv req.transferAmount Action.lookupBySequence
        (by decide) (by decide) (by decide) (by decide) (by decide) (by decide) (by decide) h1
    · exact attestationPhase_seqZero_noSeqLookup env srcRes maxRetries initialBackoff
        (hseq srcRes hs) h1
    · exact Action.noConfusion h1
    · exact Action.noConfusion h1
  · intro e a
    rfl

/-- Witness for C10: receipt without a sequence-bearing event — the
whole run performs zero by-sequence lookups. -/
theorem sequence_zero_sentinel_witness :
    ((transferUsdcWithWormholeOnly cfgGood envNoSequence reqOne 3 2000).2).count
      .lookupBySequence = 0 :=
  (sequence_zero_sentinel cfgGood envNoSequence reqOne 3 2000 (.inl rfl)).2.1

set_option maxRecDepth 8192 in
/-- C1 (counterexample): a run whose phase 1 succeeded (source
transaction 0xsrctx confirmed, sequence 42 obtained) and whose
attestation polling then timed out returns success=false with the
timeout message, but its `sourceTx` field is NOT populated — contrary
to the claim. -/
theorem failure_omits_sourceTx_counterexample :
    (transferUsdcViaWormhole envAttestationTimeout.srcEnv reqOne.transferAmount).1 =
      .ok ⟨"0xsrctx", 42⟩ ∧
    (transferUsdcWithWormholeOnly cfgGood envAttestationTimeout reqOne 2 2000).1 =
      .ok { success := false, sourceTx := none, attestationId := none,
            destinationTx := none, error := some (vaaTimeoutMsg 2) } := by
  constructor
  · norm_num [transferUsdcViaWormhole, envAttestationTimeout, envHappy, happySourceEnv,
      amountInSmallestUnit, minEthRequired, reqOne]
  · norm_num [transferUsdcWithWormholeOnly, transferUsdcWithWormholeOnlyTry,
      transferUsdcViaWormhole, attestationPhase, pollVaa, pollVaaGo, pollActions,
      envAttestationTimeout, envHappy, happySourceEnv, cfgGood, reqOne,
      amountInSmallestUnit, minEthRequired, lookupFound, handleTransferError, strContains,
      isFalsyOpt, backoffStep]
    decide

/-- C1 (amended): when phase 1 succeeded but the orchestrator returns a
failure result, that result carries success=false and the error
message, but its `sourceTx` field is left unset (`none`) — the source
transaction reference survives only inside the text of some error
messages, not in the structured field. -/
theorem failure_result_fields (cfg : Config) (env : OrchestratorEnv) (req : TransferRequest)
    (maxRetries : ℕ) (initialBackoff : ℚ) (src : SourceResult) (r : TransferResult)
    (hsrc : (transferUsdcViaWormhole env.srcEnv req.transferAmount).1 = .ok src)
    (hrun : (transferUsdcWithWormholeOnly cfg env req maxRetries initialBackoff).1 = .ok r)
    (hfail : r.success = false) :
    r.sourceTx = none ∧ r.error ≠ none := by
  rcases htry : (transferUsdcWithWormholeOnlyTry cfg env req maxRetries initialBackoff).1 with
    e | res
  · have hh : handleTransferError e = .ok r := by
      simpa [transferUsdcWithWormholeOnly, htry] using hrun
    have h3 := handleTransferError_ok e r hh
    refine ⟨h3.2.1, ?_⟩
    rw [h3.2.2]
    simp
  · have hs := tryPart_ok_success cfg env req maxRetries initialBackoff res htry
    have hres : res = r := by
      simpa [transferUsdcWithWormholeOnly, htry] using hrun
    rw [hres] at hs
    rw [hs] at hfail
    exact Bool.noConfusion hfail

set_option maxRecDepth 8192 in
/-- Witness for C1 (amended), at the concrete timed-out run. -/
theorem failure_result_fields_witness :
    ({ success := false, sourceTx := none, attestationId := none,
       destinationTx := none, error := some (vaaTimeoutMsg 2) } : TransferResult).sourceTx =
      none ∧
    ({ success := false, sourceTx := none, attestationId := none,
       destinationTx := none, error := some (vaaTimeoutMsg 2) } : TransferResult).error ≠
      none :=
  failure_result_fields cfgGood envAttestationTimeout reqOne 2 2000 ⟨"0xsrctx", 42⟩
    { success := false, sourceTx := none, attestationId := none,
      destinationTx := none, error := some (vaaTimeoutMsg 2) }
    (by
      norm_num [transferUsdcViaWormhole, envAttestationTimeout, envHappy, happySourceEnv,
        amountInSmallestUnit, minEthRequired, reqOne])
    (by
      norm_num [transferUsdcWithWormholeOnly, transferUsdcWithWormholeOnlyTry,
        transferUsdcViaWormhole, attestationPhase, pollVaa, pollVaaGo, pollActions,
        envAttestationTimeout, envHappy, happySourceEnv, cfgGood, reqOne,
        amountInSmallestUnit, minEthRequired, lookupFound, handleTransferError, strContains,
        isFalsyOpt, backoffStep]
      decide)
    rfl

set_option maxRecDepth 8192 in
/-- C4 (code bug): an error carrying the INSUFFICIENT_FUNDS code (here:
ethers rejecting the `transferTokens` submission for lack of gas) is
caught by the orchestrator's catch block, but the insufficient-funds
branch of the handler interpolates `baseSigner.address` — `baseSigner`
is const-declared inside the try block and out of scope in the catch —
so the handler itself throws a ReferenceError and the orchestrator
propagates an exception instead of returning a success=false result. -/
theorem insufficient_funds_catch_throws :
    (transferUsdcWithWormholeOnly cfgGood envInsufficientFunds reqOne 2 2000).1 =
      .error referenceErrorBaseSigner := by
  norm_num [transferUsdcWithWormholeOnly, transferUsdcWithWormholeOnlyTry,
    transferUsdcViaWormhole, envInsufficientFunds, envHappy, happySourceEnv, cfgGood, reqOne,
    amountInSmallestUnit, minEthRequired, handleTransferError, strContains]

set_option maxRecDepth 8192 in
/-- C8 (counterexample): with the destination-side bridge address
missing (an optional config value), the run fails with the
configuration error only AFTER the source-chain transfer was submitted
and the attestation fetched: the `transferTokens` submission appears in
the trace, contrary to "fails before any chain call". -/
theorem missing_destination_config_counterexample :
    (transferUsdcWithWormholeOnly cfgMissingBridge envHappy reqOne 2 2000).1 =
      .ok { success := false, sourceTx := none, attestationId := none,
            destinationTx := none, error := some missingAptosConfigMsg } ∧
    ((transferUsdcWithWormholeOnly cfgMissingBridge envHappy reqOne 2 2000).2).count
      .submitTransferTokens = 1 := by
  constructor <;>
    norm_num [transferUsdcWithWormholeOnly, transferUsdcWithWormholeOnlyTry,
      transferUsdcViaWormhole, attestationPhase, pollVaa, pollVaaGo, pollActions,
      envHappy, happySourceEnv, cfgMissingBridge, cfgGood, reqOne,
      amountInSmallestUnit, minEthRequired, lookupFound, handleTransferError, strContains,
      isFalsyOpt] <;>
    decide

set_option maxRecDepth 8192 in
/-- C8 (amended): the four required configuration values (RPC endpoints
and sponsor keys for both chains) are validated at config load, which
throws before any chain client can exist; but the destination-side
bridge address and token-type identifier are optional at load time and
only checked between phase 2 and phase 3, so when one of them is
missing the transfer fails with the configuration error only after the
source-chain transfer and the attestation lookups have been performed. -/
theorem configuration_error_timing (envv : String → Option String) (cfg : Config)
    (env : OrchestratorEnv) (req : TransferRequest) (maxRetries : ℕ) (initialBackoff : ℚ)
    (src : SourceResult) (vaaHex : String)
    (hmissing : envv "BASE_RPC_URL" = none)
    (hfalsy : isFalsyOpt cfg.aptosTokenBridgeAddress = true)
    (hsrc : (transferUsdcViaWormhole env.srcEnv req.transferAmount).1 = .ok src)
    (hvaa : (attestationPhase env src maxRetries initialBackoff).1 = .ok vaaHex) :
    loadConfig envv = .error ⟨none, "Missing required environment variable: BASE_RPC_URL"⟩ ∧
    (transferUsdcWithWormholeOnly cfg env req maxRetries initialBackoff).1 =
      .ok { success := false, error := some missingAptosConfigMsg } ∧
    Action.submitTransferTokens ∈
      (transferUsdcWithWormholeOnly cfg env req maxRetries initialBackoff).2 := by
  have htry : transferUsdcWithWormholeOnlyTry cfg env req maxRetries initialBackoff =
      (.error ⟨none, missingAptosConfigMsg⟩,
       (transferUsdcViaWormhole env.srcEnv req.transferAmount).2 ++
       (attestationPhase env src maxRetries initialBackoff).2) := by
    simp [transferUsdcWithWormholeOnlyTry, hsrc, hvaa, hfalsy]
  refine ⟨?_, ?_, ?_⟩
  · simp only [loadConfig, getRequiredEnv, hmissing]
    rfl
  · have hres : (transferUsdcWithWormholeOnly cfg env req maxRetries initialBackoff).1 =
        handleTransferError ⟨none, missingAptosConfigMsg⟩ := by
      simp [transferUsdcWithWormholeOnly, htry]
    rw [hres]
    decide
  · rw [orchestratorActions_eq, htry]
    exact List.mem_append_left _
      (transferSource_ok_shape env.srcEnv req.transferAmount src hsrc).2

set_option maxRecDepth 8192 in
/-- Witness for C8 (amended): empty process environment for the load
half; missing bridge address with an otherwise-successful run for the
timing half. -/
theorem configuration_error_timing_witness :
    loadConfig emptyProcessEnv =
      .error ⟨none, "Missing required environment variable: BASE_RPC_URL"⟩ ∧
    (transferUsdcWithWormholeOnly cfgMissingBridge envHappy reqOne 2 2000).1 =
      .ok { success := false, error := some missingAptosConfigMsg } ∧
    Action.submitTransferTokens ∈
      (transferUsdcWithWormholeOnly cfgMissingBridge envHappy reqOne 2 2000).2 :=
  configuration_error_timing emptyProcessEnv cfgMissingBridge envHappy reqOne 2 2000
    ⟨"0xsrctx", 42⟩ "0xABCVAA" rfl rfl
    (by norm_num [transferUsdcViaWormhole, envHappy, happySourceEnv,
      amountInSmallestUnit, minEthRequired, reqOne])
    (by
      norm_num [attestationPhase, pollVaa, pollVaaGo, pollActions, lookupFound,
        envHappy, happySourceEnv]
      decide)

/-- C6: when the source receipt yields no sequence identifier (a valid
non-error outcome reported as sequence 0), the orchestrator falls back
to attestation lookup keyed by the source transaction reference —
attempted once first and, only if the payload is absent, escalated to
the bounded retry loop — and still completes successfully when the
lookup returns a payload within the budget: the run performs exactly
`k + 1` tx-hash lookups (payload on 0-based call `k`) and no
by-sequence lookup. -/
theorem orchestrator_txhash_fallback (cfg : Config) (env : OrchestratorEnv)
    (req : TransferRequest) (maxRetries k : ℕ) (initialBackoff : ℚ)
    (v : String) (src : SourceResult) (destTx : String)
    (hsrc : (transferUsdcViaWormhole env.srcEnv req.transferAmount).1 = .ok src)
    (hnoseq : env.srcEnv.foundSequence = none)
    (hmiss : ∀ i, i < k → env.fetchByTxHash i = .ok none)
    (hfound : env.fetchByTxHash k = .ok (some v)) (hv : v ≠ "")
    (hk : k ≤ maxRetries)
    (hcfg1 : isFalsyOpt cfg.aptosTokenBridgeAddress = false)
    (hcfg2 : isFalsyOpt cfg.aptosUsdcCoinType = false)
    (hsubmit : env.submitVaaResult = .ok destTx)
    (hwait : env.waitFinality = .ok ()) :
    (transferUsdcWithWormholeOnly cfg env req maxRetries initialBackoff).1 =
      .ok { success := true, sourceTx := some src.txHash,
            attestationId := some (v.take 40), destinationTx := some destTx,
            error := none } ∧
    ((transferUsdcWithWormholeOnly cfg env req maxRetries initialBackoff).2).count
      .lookupByTxHash = k + 1 ∧
    ((transferUsdcWithWormholeOnly cfg env req maxRetries initialBackoff).2).count
      .lookupBySequence = 0 := by
  have hs0 : src.sequence = 0 := by
    have h1 := (transferSource_ok_shape env.srcEnv req.transferAmount src hsrc).1
    rw [hnoseq] at h1
    simpa using h1
  have hatt : (attestationPhase env src maxRetries initialBackoff).1 = .ok v ∧
      ((attestationPhase env src maxRetries initialBackoff).2).count .lookupByTxHash = k + 1 ∧
      ((attestationPhase env src maxRetries initialBackoff).2).count .lookupBySequence = 0 := by
    rcases Nat.eq_zero_or_pos k with hk0 | hkpos
    · subst hk0
      simp only [attestationPhase, hs0, if_pos, hfound, lookupFound, if_neg hv]
      refine ⟨?_, ?_, ?_⟩
      · trivial
      · decide
      · decide
    · have h0 : env.fetchByTxHash 0 = .ok none := hmiss 0 hkpos
      have hfb := fallbackGo_found env.fetchByTxHash maxRetries k v hmiss hfound hv
        maxRetries 0 initialBackoff (by omega) hkpos hk
      have hnoseqfb :=
        fallbackGo_noSeqLookup env.fetchByTxHash maxRetries maxRetries 0 initialBackoff
      simp only [attestationPhase, hs0, if_pos, h0, lookupFound, hfb.1]
      refine ⟨?_, ?_, ?_⟩
      · trivial
      · simp only [List.count_cons, hfb.2, Nat.sub_zero]
        have e2 : (Action.lookupByTxHash == Action.lookupByTxHash) = true := rfl
        rw [e2]
        simp
      · rw [List.count_eq_zero_of_not_mem]
        simp only [List.mem_cons, not_or]
        exact ⟨fun hcon => Action.noConfusion hcon, hnoseqfb⟩
  have htry : transferUsdcWithWormholeOnlyTry cfg env req maxRetries initialBackoff =
      (.ok { success := true, sourceTx := some src.txHash,
             attestationId := some (v.take 40), destinationTx := some destTx,
             error := none },
       (transferUsdcViaWormhole env.srcEnv req.transferAmount).2 ++
       (attestationPhase env src maxRetries initialBackoff).2 ++
       [.submitCompletionVaa, .waitDestFinality]) := by
    simp [transferUsdcWithWormholeOnlyTry, hsrc, hatt.1, hcfg1, hcfg2, hsubmit, hwait]
  have hacts : (transferUsdcWithWormholeOnly cfg env req maxRetries initialBackoff).2 =
      (transferUsdcViaWormhole env.srcEnv req.transferAmount).2 ++
      (attestationPhase env src maxRetries initialBackoff).2 ++
      [.submitCompletionVaa, .waitDestFinality] := by
    rw [orchestratorActions_eq, htry]
  refine ⟨?_, ?_, ?_⟩
  · simp [transferUsdcWithWormholeOnly, htry]
  · rw [hacts, List.count_append, List.count_append, hatt.2.1,
      List.count_eq_zero_of_not_mem (transferSource_notMem env.srcEnv req.transferAmount
        Action.lookupByTxHash (by decide) (by decide) (by decide) (by decide) (by decide)
        (by decide) (by decide)),
      show ([Action.submitCompletionVaa, Action.waitDestFinality] : List Action).count
        Action.lookupByTxHash = 0 from by decide]
    omega
  · rw [hacts, List.count_append, List.count_append, hatt.2.2,
      List.count_eq_zero_of_not_mem (transferSource_notMem env.srcEnv req.transferAmount
        Action.lookupBySequence (by decide) (by decide) (by decide) (by decide) (by decide)
        (by decide) (by decide)),
      show ([Action.submitCompletionVaa, Action.waitDestFinality] : List Action).count
        Action.lookupBySequence = 0 from by decide]

/-- Witness for C6: no sequence-bearing event, payload found on the
second tx-hash lookup (k = 1), budget 3. -/
theorem orchestrator_txhash_fallback_witness :
    (transferUsdcWithWormholeOnly cfgGood envNoSequence reqOne 3 2000).1 =
      .ok { success := true, sourceTx := some (SourceResult.txHash ⟨"0xsrctx", 0⟩),
            attestationId := some (String.take "0xFALLBACKVAA" 40),
            destinationTx := some "0xDEFdesttx", error := none } ∧
    ((transferUsdcWithWormholeOnly cfgGood envNoSequence reqOne 3 2000).2).count
      .lookupByTxHash = 1 + 1 ∧
    ((transferUsdcWithWormholeOnly cfgGood envNoSequence reqOne 3 2000).2).count
      .lookupBySequence = 0 :=
  orchestrator_txhash_fallback cfgGood envNoSequence reqOne 3 1 2000 "0xFALLBACKVAA"
    ⟨"0xsrctx", 0⟩ "0xDEFdesttx"
    (by norm_num [transferUsdcViaWormhole, envNoSequence, envHappy, happySourceEnv,
      amountInSmallestUnit, minEthRequired, reqOne])
    rfl
    (by decide)
    rfl
    (by decide)
    (by omega)
    rfl rfl rfl rfl

end FluidSdk
